import Mathlib

/-!
Verification of the opa-wrapper library (src/lib.rs): a thin asynchronous
wrapper that loads compiled OPA policy WASM modules, instantiates isolated
policy instances from them, and evaluates named entrypoints.

Shallow embedding conventions:
* External collaborators (the wasmtime engine, the opa-wasm bundle reader and
  runtime, tokio file IO) are out of scope of the repository; they are
  modelled as an explicit World parameter holding deterministic functions,
  with their boundary contracts taken from the specification where the
  wrapper relies on them.
* Asynchronous Rust functions returning anyhow Result become Lean functions
  returning Except ErrKind; the error kinds are the classes of spec section 7.
* Engine allocation (wasmtime Engine::new) is modelled by explicit state
  passing of an allocation counter, so that freshness and frame properties
  are statable.
* serde-generic payloads (data documents, inputs, outputs) are modelled by a
  single value type parameter V, with the fallible conversions to and from
  the internal representation supplied by the World.
-/

namespace OpaWrapper

/-- Error classes of the single error channel (spec section 7); the Rust code
uses anyhow and the classes are those the spec assigns to each failure. -/
inductive ErrKind where
  | io
  | bundle
  | compile
  | instantiate
  | serialize
  | deserialize
  | notFound
  | execute
deriving DecidableEq, Repr

/-- wasmtime Config as the wrapper uses it: from_wasm sets only
async_support(true) (src/lib.rs lines 47-48). -/
structure Config where
  asyncSupport : Bool
deriving DecidableEq, Repr

/-- A wasmtime Engine handle: an allocation identity plus the configuration it
was created with. Two handles with the same id denote the same engine. -/
structure Engine where
  id : Nat
  config : Config
deriving DecidableEq, Repr

/-- Modelled from the spec: the semantics of a compiled policy module, owned
by the external opa-wasm/wasmtime collaborators (absent from src/): its ABI
compatibility tag, its entrypoint set, its default entrypoint, and the
sandboxed step function taking an entrypoint name, the bound data document,
the (internally represented) input and the current sandbox-store state to
either a trap or an output value with a new store state. -/
structure PolicySem (V : Type) where
  abi : Nat
  eps : List String
  defEp : Option String
  step : String → Option V → V → Nat → Except Unit (V × Nat)

/-- The external world the wrapper runs against: the behaviour of bytecode
compilation (wasmtime Module::new), bundle extraction (opa-wasm load_bundle),
file reads (tokio fs read), the set of ABI versions the host runtime accepts,
and the serde conversions between caller values and the internal
representation. All are deterministic functions, reflecting that each
collaborator behaves as a function of its input within one run. -/
structure World (V : Type) where
  engineOk : Bool
  compile : List Nat → Option (PolicySem V)
  loadBundle : List Nat → Except ErrKind (List Nat)
  readFile : String → Option (List Nat)
  hostAbis : List Nat
  serData : V → Option V
  serInput : V → Option V
  deserOut : V → Option V

/-- OPAModule (src/lib.rs lines 9-13): a reference-counted engine handle and a
reference-counted compiled module. Arc sharing is modelled by plain field
equality: clones denote the same engine id and the same module semantics. -/
structure OPAModule (V : Type) where
  engine : Engine
  module : PolicySem V

/-- A wasmtime Store bound to an engine: the engine it belongs to and the
mutable sandbox state of the instantiated module. -/
structure Store where
  engineId : Nat
  st : Nat
deriving DecidableEq, Repr

/-- OPAPolicy (src/lib.rs lines 15-18): the instantiated policy (compiled
semantics plus the data document bound at construction, in internal
representation) together with its exclusive store. -/
structure OPAPolicy (V : Type) where
  sem : PolicySem V
  data : Option V
  store : Store

/-- OPAModule::from_wasm (src/lib.rs lines 45-59): configure an async-capable
engine, create it (allocating a fresh engine), compile the bytecode with it;
Compile-class failure on malformed bytecode (spec section 4.1). The Nat
argument and result thread the engine-allocation counter. -/
def from_wasm (w : World V) (bytes : List Nat) (s : Nat) :
    Except ErrKind (OPAModule V) × Nat :=
  let config : Config := { asyncSupport := true }
  if w.engineOk then
    let engine : Engine := { id := s, config := config }
    match w.compile bytes with
    | none => (.error .compile, s + 1)
    | some sem => (.ok { engine := engine, module := sem }, s + 1)
  else (.error .compile, s)

/-- OPAModule::from_wasm_file (src/lib.rs lines 61-63): asynchronously read
the file with tokio (whose failures are IO-class), then delegate to
from_wasm. -/
def from_wasm_file (w : World V) (path : String) (s : Nat) :
    Except ErrKind (OPAModule V) × Nat :=
  match w.readFile path with
  | none => (.error .io, s)
  | some bytes => from_wasm w bytes s

/-- OPAModule::from_bundle (src/lib.rs lines 65-69): extract the policy
bytecode from the bundle stream with opa-wasm load_bundle, then compile it
with from_wasm. -/
def from_bundle (w : World V) (reader : List Nat) (s : Nat) :
    Except ErrKind (OPAModule V) × Nat :=
  match w.loadBundle reader with
  | .error e => (.error e, s)
  | .ok bytes => from_wasm w bytes s

/-- Modelled from the spec: opa-wasm read_bundle (absent from src/), the
file-path form of bundle extraction: read the file (IO-class error on
failure), then extract as load_bundle does (spec section 4.1, from_bundle_file
as file-path convenience over from_bundle). -/
def readBundle (w : World V) (path : String) : Except ErrKind (List Nat) :=
  match w.readFile path with
  | none => .error .io
  | some bytes => w.loadBundle bytes

/-- OPAModule::from_bundle_file (src/lib.rs lines 71-75): extract the policy
bytecode from the bundle file with opa-wasm read_bundle, then compile it with
from_wasm. -/
def from_bundle_file (w : World V) (path : String) (s : Nat) :
    Except ErrKind (OPAModule V) × Nat :=
  match readBundle w path with
  | .error e => (.error e, s)
  | .ok bytes => from_wasm w bytes s

/-- OPAModule::get_policy_wasm_from_bundle (src/lib.rs lines 77-81): just
opa-wasm load_bundle; no engine, no compilation. -/
def get_policy_wasm_from_bundle (w : World V) (reader : List Nat) (s : Nat) :
    Except ErrKind (List Nat) × Nat :=
  (w.loadBundle reader, s)

/-- OPAModule::get_policy_wasm_from_bundle_file (src/lib.rs lines 83-87): just
opa-wasm read_bundle; no engine, no compilation. -/
def get_policy_wasm_from_bundle_file (w : World V) (path : String) (s : Nat) :
    Except ErrKind (List Nat) × Nat :=
  (readBundle w path, s)

/-- Modelled from the spec: opa-wasm Runtime::new (absent from src/),
instantiation of the compiled module into a store; fails with an
Instantiate-class error when the module's ABI version is not among those the
host runtime supports (spec section 4.2). -/
def runtimeNew (w : World V) (m : PolicySem V) : Except ErrKind (PolicySem V) :=
  if m.abi ∈ w.hostAbis then .ok m else .error .instantiate

/-- OPAModule::build_policy (src/lib.rs lines 89-106): create a fresh store
bound to the module's engine, instantiate the module into it (Runtime::new),
then bind the data document (with_data, Serialize-class error when the data
document cannot be converted to the internal representation, spec section
4.2) or instantiate without data (without_data). -/
def build_policy (w : World V) (m : OPAModule V) (data : Option V) :
    Except ErrKind (OPAPolicy V) :=
  let store : Store := { engineId := m.engine.id, st := 0 }
  match runtimeNew w m.module with
  | .error e => .error e
  | .ok rt =>
    match data with
    | some d =>
      match w.serData d with
      | none => .error .serialize
      | some v => .ok { sem := rt, data := some v, store := store }
    | none => .ok { sem := rt, data := none, store := store }

/-- OPAPolicy::eval (src/lib.rs lines 21-29), delegating to opa-wasm
Policy::evaluate, modelled from the spec (section 4.3): a name absent from the
entrypoint set fails NotFound-class with the store untouched; otherwise the
input is serialized (Serialize-class error on conversion failure), the
sandboxed step runs against the bound data and the store state (Execute-class
error on a trap), and the output is decoded (Deserialize-class error on
conversion failure). The updated instance is returned alongside the result,
reflecting mutation of self. -/
def OPAPolicy.eval (w : World V) (p : OPAPolicy V) (entrypoint : String)
    (input : V) : Except ErrKind V × OPAPolicy V :=
  if entrypoint ∈ p.sem.eps then
    match w.serInput input with
    | none => (.error .serialize, p)
    | some v =>
      match p.sem.step entrypoint p.data v p.store.st with
      | .error _ => (.error .execute, p)
      | .ok (out, st') =>
        let p' : OPAPolicy V :=
          { sem := p.sem, data := p.data,
            store := { engineId := p.store.engineId, st := st' } }
        match w.deserOut out with
        | none => (.error .deserialize, p')
        | some r => (.ok r, p')
  else (.error .notFound, p)

/-- OPAPolicy::default_entrypoint (src/lib.rs lines 31-33). -/
def OPAPolicy.default_entrypoint (p : OPAPolicy V) : Option String :=
  p.sem.defEp

/-- OPAPolicy::entrypoints (src/lib.rs lines 35-37). -/
def OPAPolicy.entrypoints (p : OPAPolicy V) : List String :=
  p.sem.eps

/-- OPAPolicy::abi_version (src/lib.rs lines 39-41). -/
def OPAPolicy.abi_version (p : OPAPolicy V) : Nat :=
  p.sem.abi

/-- OPAModule::eval (src/lib.rs lines 108-117): build a policy from the data
document and evaluate the entrypoint on it, discarding the instance. -/
def OPAModule.eval (w : World V) (m : OPAModule V) (data : Option V)
    (entrypoint : String) (input : V) : Except ErrKind V :=
  match build_policy w m data with
  | .error e => .error e
  | .ok p => (OPAPolicy.eval w p entrypoint input).1

/-- OPAModule::clone (derive(Clone) on src/lib.rs line 9): field-wise clone;
cloning an Arc yields a handle to the same engine and the same compiled
module, with no bytecode copied, so the clone carries the same engine identity
and the same module semantics. -/
def OPAModule.clone (m : OPAModule V) : OPAModule V :=
  { engine := m.engine, module := m.module }

/-- Specification-side definition of the one-shot convenience (spec section
4.3, evaluate_once): build a fresh PolicyInstance, call eval once on it,
discard the instance. -/
def evaluate_once (w : World V) (m : OPAModule V) (data : Option V)
    (entrypoint : String) (input : V) : Except ErrKind V :=
  match build_policy w m data with
  | .error e => .error e
  | .ok p => (OPAPolicy.eval w p entrypoint input).1

/-! Concrete instances used to exercise the model on closed inputs: a policy
semantics with one entrypoint, a well-behaved world, and a world whose bundle
extraction succeeds but whose extracted bytecode does not compile. -/

/-- A concrete compiled-policy semantics: ABI 1, one entrypoint, and a step
function that consumes the input, the bound data and the store state. -/
def csem : PolicySem Nat where
  abi := 1
  eps := ["example/hello"]
  defEp := some "example/hello"
  step := fun _ d i st => .ok (i + st + d.getD 0, st + 1)

/-- A concrete well-behaved world: engine creation succeeds, every bytecode
compiles to csem, bundle extraction is the identity, files read as [7], the
host supports ABI 1, and conversions succeed except for the data value 99. -/
def cworld : World Nat where
  engineOk := true
  compile := fun _ => some csem
  loadBundle := fun b => .ok b
  readFile := fun _ => some [7]
  hostAbis := [1]
  serData := fun v => if v = 99 then none else some v
  serInput := fun v => some v
  deserOut := fun v => some v

/-- A concrete world where bundle extraction succeeds (identity) but no
bytecode compiles, and file reads fail. -/
def cworldBad : World Nat where
  engineOk := true
  compile := fun _ => none
  loadBundle := fun b => .ok b
  readFile := fun _ => none
  hostAbis := []
  serData := fun v => some v
  serInput := fun v => some v
  deserOut := fun v => some v

/-- The module that from_wasm produces in cworld from allocation state 0. -/
def cmod : OPAModule Nat where
  engine := { id := 0, config := { asyncSupport := true } }
  module := csem

/-- The module that from_wasm produces in cworld from allocation state 1. -/
def cmod1 : OPAModule Nat where
  engine := { id := 1, config := { asyncSupport := true } }
  module := csem

/-- The module that from_wasm produces in cworld from allocation state 5. -/
def cmod5 : OPAModule Nat where
  engine := { id := 5, config := { asyncSupport := true } }
  module := csem

/-- A concrete built policy instance over csem without bound data. -/
def cpol : OPAPolicy Nat where
  sem := csem
  data := none
  store := { engineId := 0, st := 0 }

/-- Helper: the value component of a policy evaluation does not depend on the
engine identity recorded in the store. -/
theorem evalFst_store_engine {V : Type} (w : World V) (sem : PolicySem V)
    (d : Option V) (e₁ e₂ st : Nat) (ep : String) (i : V) :
    (OPAPolicy.eval w { sem := sem, data := d, store := { engineId := e₁, st := st } } ep i).1 =
    (OPAPolicy.eval w { sem := sem, data := d, store := { engineId := e₂, st := st } } ep i).1 := by
  unfold OPAPolicy.eval
  by_cases h : ep ∈ sem.eps
  · simp only [h, if_true]
    cases w.serInput i with
    | none => rfl
    | some v =>
      dsimp only
      cases sem.step ep d v st with
      | error _ => rfl
      | ok out =>
        dsimp only
        cases w.deserOut out.1 <;> rfl
  · simp only [h, if_false]

/-- Helper: the one-shot evaluation result depends only on the compiled module
semantics, never on the engine handle stored beside it. -/
theorem moduleEval_engine_irrelevant {V : Type} (w : World V) (eng₁ eng₂ : Engine)
    (sem : PolicySem V) (data : Option V) (ep : String) (i : V) :
    OPAModule.eval w { engine := eng₁, module := sem } data ep i =
    OPAModule.eval w { engine := eng₂, module := sem } data ep i := by
  unfold OPAModule.eval build_policy runtimeNew
  dsimp only
  by_cases h : sem.abi ∈ w.hostAbis
  · simp only [h, if_true]
    cases data with
    | none => exact evalFst_store_engine w sem none eng₁.id eng₂.id 0 ep i
    | some d =>
      dsimp only
      cases w.serData d with
      | none => rfl
      | some v => exact evalFst_store_engine w sem (some v) eng₁.id eng₂.id 0 ep i
  · simp only [h, if_false]

/-- Helper: a successful from_wasm call returns a module whose semantics is
exactly what compilation of the given bytecode yields. -/
theorem from_wasm_ok_module {V : Type} (w : World V) (bytes : List Nat) (s : Nat)
    (m : OPAModule V) (h : (from_wasm w bytes s).1 = .ok m) :
    w.compile bytes = some m.module := by
  unfold from_wasm at h
  by_cases he : w.engineOk
  · simp only [he, if_true] at h
    cases hc : w.compile bytes with
    | none => rw [hc] at h; exact absurd h (by simp)
    | some sem =>
      rw [hc] at h
      simp only [Except.ok.injEq] at h
      rw [← h]
  · simp only [he, if_false] at h
    exact absurd h (by simp)

/-- C1: for every module, optional data document, entrypoint and input, the
one-shot OPAModule.eval returns exactly the same result (value or error) as
building a fresh PolicyInstance with build_policy and calling OPAPolicy.eval
once on it, discarding the instance (the specification-side evaluate_once). -/
theorem opamodule_eval_is_evaluate_once {V : Type} (w : World V) (m : OPAModule V)
    (data : Option V) (entrypoint : String) (input : V) :
    OPAModule.eval w m data entrypoint input =
      evaluate_once w m data entrypoint input := rfl

/-- C2 counterexample: in a world where the bundle extracts fine but the
extracted bytecode is malformed, get_policy_wasm_from_bundle succeeds on the
stream [4] yet from_wasm on the extracted bytes fails with a Compile-class
error, so extraction success does not imply compilation success. -/
theorem bundle_roundtrip_unconditional_false :
    (get_policy_wasm_from_bundle cworldBad [4] 0).1 = Except.ok [4] ∧
    (from_wasm cworldBad [4] 0).1 = Except.error ErrKind.compile := ⟨rfl, rfl⟩

/-- C2 (amended): whenever get_policy_wasm_from_bundle extracts bytecode from
a stream, from_wasm on the extracted bytecode (from the returned allocation
state) returns exactly the same outcome as from_bundle on the stream — the
same error, or the same module; in particular, when both succeed, the two
modules evaluate identically on every data, entrypoint and input. -/
theorem bundle_roundtrip (V : Type) (w : World V) (reader : List Nat)
    (s s₁ : Nat) (bytes : List Nat)
    (h : get_policy_wasm_from_bundle w reader s = (.ok bytes, s₁)) :
    from_bundle w reader s = from_wasm w bytes s₁ ∧
    ∀ m₁ m₂ t₁ t₂ data ep input,
      from_bundle w reader s = (.ok m₁, t₁) →
      from_wasm w bytes s₁ = (.ok m₂, t₂) →
      OPAModule.eval w m₁ data ep input = OPAModule.eval w m₂ data ep input := by
  have h1 : w.loadBundle reader = Except.ok bytes := congrArg Prod.fst h
  have h2 : s = s₁ := congrArg Prod.snd h
  subst h2
  have heq : from_bundle w reader s = from_wasm w bytes s := by
    unfold from_bundle
    rw [h1]
  refine ⟨heq, fun m₁ m₂ t₁ t₂ data ep input e₁ e₂ => ?_⟩
  rw [heq] at e₁
  rw [e₁] at e₂
  have : m₁ = m₂ := by
    have := congrArg Prod.fst e₂
    simpa using this
  rw [this]

/-- C2 witness: the amended round-trip at the concrete stream [3] in the
well-behaved world. -/
theorem bundle_roundtrip_witness :
    from_bundle cworld [3] 0 = from_wasm cworld [3] 0 :=
  (bundle_roundtrip Nat cworld [3] 0 0 [3] rfl).1

/-- C3: build_policy creates a fresh store (initial sandbox state) bound to
the module's engine; with a data document it binds its internal representation
into the instance, without one it instantiates with no bound data; it fails
Instantiate-class when the module's ABI version is not supported by the host,
and Serialize-class when the data document cannot be converted. -/
theorem build_policy_spec {V : Type} (w : World V) (m : OPAModule V) :
    (m.module.abi ∉ w.hostAbis →
      ∀ data, build_policy w m data = .error .instantiate) ∧
    (m.module.abi ∈ w.hostAbis →
      (∀ d, w.serData d = none →
        build_policy w m (some d) = .error .serialize) ∧
      (∀ d v, w.serData d = some v →
        build_policy w m (some d) =
          .ok { sem := m.module, data := some v,
                store := { engineId := m.engine.id, st := 0 } }) ∧
      build_policy w m none =
        .ok { sem := m.module, data := none,
              store := { engineId := m.engine.id, st := 0 } }) := by
  constructor
  · intro h data
    cases data <;> simp [build_policy, runtimeNew, h]
  · intro h
    refine ⟨fun d hd => ?_, fun d v hv => ?_, ?_⟩
    · simp [build_policy, runtimeNew, h, hd]
    · simp [build_policy, runtimeNew, h, hv]
    · simp [build_policy, runtimeNew, h]

/-- C3 witness: in the well-behaved world, building from the concrete module
with data document 5 binds the serialized data into a fresh store bound to
engine 0. -/
theorem build_policy_spec_witness :
    build_policy cworld cmod (some 5) =
      .ok { sem := csem, data := some 5,
            store := { engineId := 0, st := 0 } } :=
  ((build_policy_spec cworld cmod).2 (by decide)).2.1 5 5 (by decide)

/-- C4: when the file at a path reads as some byte contents, from_bundle_file
on the path returns exactly what from_bundle returns on those contents — same
module (hence identical evaluation) or same error. -/
theorem from_bundle_file_is_from_bundle (V : Type) (w : World V) (path : String)
    (bytes : List Nat) (s : Nat) (h : w.readFile path = some bytes) :
    from_bundle_file w path s = from_bundle w bytes s := by
  unfold from_bundle_file from_bundle readBundle
  rw [h]

/-- C4 witness: at a concrete path (read as [7] in the well-behaved world),
the file route equals the stream route on the contents. -/
theorem from_bundle_file_is_from_bundle_witness :
    from_bundle_file cworld "bundle.tar.gz" 0 = from_bundle cworld [7] 0 :=
  from_bundle_file_is_from_bundle Nat cworld "bundle.tar.gz" [7] 0 rfl

/-- C5: evaluating an entrypoint name absent from entrypoints fails with a
NotFound-class error and leaves the instance unchanged, so any subsequent
evaluation on the returned instance behaves exactly as on the original. -/
theorem eval_unknown_entrypoint {V : Type} (w : World V) (p : OPAPolicy V)
    (entrypoint : String) (input : V)
    (h : entrypoint ∉ OPAPolicy.entrypoints p) :
    OPAPolicy.eval w p entrypoint input = (.error .notFound, p) ∧
    ∀ ep₂ i₂,
      OPAPolicy.eval w (OPAPolicy.eval w p entrypoint input).2 ep₂ i₂ =
        OPAPolicy.eval w p ep₂ i₂ := by
  simp only [OPAPolicy.entrypoints] at h
  have h1 : OPAPolicy.eval w p entrypoint input = (.error .notFound, p) := by
    unfold OPAPolicy.eval
    simp [h]
  exact ⟨h1, fun ep₂ i₂ => by rw [h1]⟩

/-- C5 witness: on the concrete instance over csem, the unknown name fails
NotFound-class with the instance returned untouched. -/
theorem eval_unknown_entrypoint_witness :
    OPAPolicy.eval cworld cpol "nope" 0 = (.error .notFound, cpol) :=
  (eval_unknown_entrypoint cworld cpol "nope" 0 (by decide)).1

/-- C6: from_wasm_file reads the file and delegates to from_wasm: a failed
read yields an IO-class error with the allocation state untouched (no engine
constructed, no compilation attempted), and a successful read makes the result
exactly from_wasm on the file's bytes, Compile-class errors included. -/
theorem from_wasm_file_spec {V : Type} (w : World V) (path : String) (s : Nat) :
    (w.readFile path = none → from_wasm_file w path s = (.error .io, s)) ∧
    ∀ bytes, w.readFile path = some bytes →
      from_wasm_file w path s = from_wasm w bytes s := by
  constructor
  · intro h
    unfold from_wasm_file
    rw [h]
  · intro bytes h
    unfold from_wasm_file
    rw [h]

/-- C6 witness: the failed-read branch in the world whose reads fail, and the
successful-read branch in the well-behaved world, both at concrete paths. -/
theorem from_wasm_file_spec_witness :
    from_wasm_file cworldBad "policy.wasm" 0 = (.error .io, 0) ∧
    from_wasm_file cworld "policy.wasm" 0 = from_wasm cworld [7] 0 :=
  ⟨(from_wasm_file_spec cworldBad "policy.wasm" 0).1 rfl,
   (from_wasm_file_spec cworld "policy.wasm" 0).2 [7] rfl⟩

/-- C7: the bytecode-extraction entry points return exactly what the external
bundle extraction yields — uncompiled — and leave the engine-allocation state
untouched: no ExecutionEngine and no CompiledModule is constructed. -/
theorem get_policy_wasm_frame (V : Type) (w : World V) (reader : List Nat)
    (path : String) (s : Nat) :
    get_policy_wasm_from_bundle w reader s = (w.loadBundle reader, s) ∧
    get_policy_wasm_from_bundle_file w path s = (readBundle w path, s) :=
  ⟨rfl, rfl⟩

/-- C8: loading identical bytecode twice (from any two allocation states) and
evaluating the same data, entrypoint and input through a policy built from
each module yields identical decoded results. -/
theorem load_twice_deterministic {V : Type} (w : World V) (bytes : List Nat)
    (s₁ s₂ : Nat) (m₁ m₂ : OPAModule V)
    (h₁ : (from_wasm w bytes s₁).1 = .ok m₁)
    (h₂ : (from_wasm w bytes s₂).1 = .ok m₂)
    (data : Option V) (entrypoint : String) (input : V) :
    OPAModule.eval w m₁ data entrypoint input =
      OPAModule.eval w m₂ data entrypoint input := by
  have c₁ := from_wasm_ok_module w bytes s₁ m₁ h₁
  have c₂ := from_wasm_ok_module w bytes s₂ m₂ h₂
  have hmod : m₁.module = m₂.module := by
    rw [c₁] at c₂
    exact Option.some.inj c₂
  calc OPAModule.eval w m₁ data entrypoint input
      = OPAModule.eval w { engine := m₁.engine, module := m₁.module }
          data entrypoint input := rfl
    _ = OPAModule.eval w { engine := m₂.engine, module := m₁.module }
          data entrypoint input :=
        moduleEval_engine_irrelevant w m₁.engine m₂.engine m₁.module
          data entrypoint input
    _ = OPAModule.eval w m₂ data entrypoint input := by rw [hmod]

/-- C8 witness: the modules obtained from allocation states 0 and 5 of the
same bytecode evaluate identically on a concrete triple. -/
theorem load_twice_deterministic_witness :
    OPAModule.eval cworld cmod (some 2) "example/hello" 3 =
      OPAModule.eval cworld cmod5 (some 2) "example/hello" 3 :=
  load_twice_deterministic cworld [1] 0 5 cmod cmod5 rfl rfl
    (some 2) "example/hello" 3

/-- C9: every successful from_wasm call returns a module holding a freshly
allocated engine with async support enabled; two modules from consecutive
calls never share an engine. -/
theorem from_wasm_fresh_engine {V : Type} (w : World V) (b₁ b₂ : List Nat)
    (s s₁ s₂ : Nat) (m₁ m₂ : OPAModule V)
    (h₁ : from_wasm w b₁ s = (.ok m₁, s₁))
    (h₂ : from_wasm w b₂ s₁ = (.ok m₂, s₂)) :
    m₁.engine.id ≠ m₂.engine.id ∧
    m₁.engine.config.asyncSupport = true ∧
    m₂.engine.config.asyncSupport = true := by
  unfold from_wasm at h₁ h₂
  by_cases he : w.engineOk
  · simp only [he, if_true] at h₁ h₂
    cases hc₁ : w.compile b₁ with
    | none => rw [hc₁] at h₁; exact absurd (congrArg Prod.fst h₁) (by simp)
    | some sem₁ =>
      rw [hc₁] at h₁
      cases hc₂ : w.compile b₂ with
      | none => rw [hc₂] at h₂; exact absurd (congrArg Prod.fst h₂) (by simp)
      | some sem₂ =>
        rw [hc₂] at h₂
        have e₁ : OPAModule.mk (Engine.mk s (Config.mk true)) sem₁ = m₁ :=
          Except.ok.inj (congrArg Prod.fst h₁)
        have t₁ : s + 1 = s₁ := congrArg Prod.snd h₁
        have e₂ : OPAModule.mk (Engine.mk s₁ (Config.mk true)) sem₂ = m₂ :=
          Except.ok.inj (congrArg Prod.fst h₂)
        rw [← e₁, ← e₂, ← t₁]
        refine ⟨?_, rfl, rfl⟩
        dsimp only
        omega
  · simp only [he, if_false] at h₁
    exact absurd (congrArg Prod.fst h₁) (by simp)

/-- C9 witness: two consecutive loads from allocation state 0 yield modules
with distinct engines, both async-capable. -/
theorem from_wasm_fresh_engine_witness :
    cmod.engine.id ≠ cmod1.engine.id ∧
    cmod.engine.config.asyncSupport = true ∧
    cmod1.engine.config.asyncSupport = true :=
  from_wasm_fresh_engine cworld [1] [2] 0 1 2 cmod cmod1 rfl rfl

/-- C10: a clone of an OPAModule carries the very same engine handle and the
very same compiled module semantics (Arc sharing, no bytecode copy), so
build_policy and eval on the clone behave identically to the original for
every data document, entrypoint and input. -/
theorem clone_shares_engine_and_module {V : Type} (w : World V)
    (m : OPAModule V) (data : Option V) (entrypoint : String) (input : V) :
    (OPAModule.clone m).engine = m.engine ∧
    (OPAModule.clone m).module = m.module ∧
    build_policy w (OPAModule.clone m) data = build_policy w m data ∧
    OPAModule.eval w (OPAModule.clone m) data entrypoint input =
      OPAModule.eval w m data entrypoint input :=
  ⟨rfl, rfl, rfl, rfl⟩

end OpaWrapper
